import Mathlib

/-!
Verification development for the web3-crypto-architecture-comparator
program (`src/app.py`).

Numeric modelling: the Python script computes with IEEE doubles, but every
constant in the catalog and in the scoring formula is a short decimal
literal, and the final result is rounded to four decimal places, far from
any binary-rounding boundary.  We therefore embed the arithmetic over `ℚ`
(exact rational arithmetic), and model Python's `round` (round half to
even) exactly on rationals.  The program's dictionaries are embedded as
insertion-ordered association lists over a `PyVal` value type; strings and
their serializations (JSON dumps, UTF-8 encoding, SHA-256) are embedded
executably.
-/

namespace App

/-- A Python value as it occurs in the summary dictionary: a string, an
integer, or a float (modelled as an exact rational). -/
inductive PyVal where
  | str (s : String)
  | int (i : ℤ)
  | rat (q : ℚ)
deriving DecidableEq, Repr

/-- The `ProofSystem` dataclass of `src/app.py` (lines 10-19): key, name,
family and description strings plus four numeric scores. -/
structure ProofSystem where
  key : String
  name : String
  family : String
  description : String
  proving_complexity : ℚ
  verification_cost : ℚ
  privacy_strength : ℚ
  soundness_guarantee : ℚ
deriving DecidableEq, Repr

/-- The `"aztec"` record of the `SYSTEMS` catalog (lines 23-32). -/
def aztecSystem : ProofSystem :=
  { key := "aztec"
    name := "Aztec Noir-style ZK System"
    family := "ZK-SNARK privacy model"
    description := "A zk system enabling encrypted transactions and private state."
    proving_complexity := 7.8
    verification_cost := 2.1
    privacy_strength := 9.3
    soundness_guarantee := 8.4 }

/-- The `"zama"` record of the `SYSTEMS` catalog (lines 33-42). -/
def zamaSystem : ProofSystem :=
  { key := "zama"
    name := "Zama FHE Cryptosystem"
    family := "Fully Homomorphic Encryption"
    description := "FHE compute model with encrypted inputs, outputs, and logic."
    proving_complexity := 9.2
    verification_cost := 7.8
    privacy_strength := 8.7
    soundness_guarantee := 9.1 }

/-- The `"soundness"` record of the `SYSTEMS` catalog (lines 43-52). -/
def soundnessSystem : ProofSystem :=
  { key := "soundness"
    name := "Formal Soundness Verification Model"
    family := "Proof-oriented protocol engineering"
    description := "A system built around rigorous soundness proofs and verifiable execution."
    proving_complexity := 6.1
    verification_cost := 3.2
    privacy_strength := 6.4
    soundness_guarantee := 10.0 }

/-- The `SYSTEMS` dictionary (lines 22-53), as an insertion-ordered
association list. -/
def SYSTEMS : List (String × ProofSystem) :=
  [("aztec", aztecSystem), ("zama", zamaSystem), ("soundness", soundnessSystem)]

/-- Dictionary lookup `SYSTEMS[k]` (line 122), returning `none` for a key
outside the catalog. -/
def lookupSystem (k : String) : Option ProofSystem :=
  (SYSTEMS.find? (fun kv => kv.1 == k)).map (fun kv => kv.2)

/-- Round a rational to the nearest integer, ties to even: the behavior of
Python's built-in `round` on an exact value. -/
def nearestEven (x : ℚ) : ℤ :=
  if x - ⌊x⌋ < 1/2 then ⌊x⌋
  else if 1/2 < x - ⌊x⌋ then ⌊x⌋ + 1
  else if ⌊x⌋ % 2 = 0 then ⌊x⌋ else ⌊x⌋ + 1

/-- Python's `round(x, n)` on an exact rational: round `x * 10^n` to the
nearest integer (ties to even) and scale back. -/
def pythonRound (x : ℚ) (n : ℕ) : ℚ :=
  (nearestEven (x * 10 ^ n) : ℚ) / 10 ^ n

/-- The `benefit` local of `compute_quality_index` (line 66). -/
def benefit (system : ProofSystem) : ℚ :=
  0.42 * system.privacy_strength + 0.43 * system.soundness_guarantee

/-- The `penalty` local of `compute_quality_index` (line 67). -/
def penalty (system : ProofSystem) : ℚ :=
  0.10 * system.proving_complexity + 0.05 * system.verification_cost

/-- The `throughput_factor` local of `compute_quality_index` (line 68):
`min(1.0, max(0.35, 1 - tx_rate / 20000))`. -/
def throughput_factor (tx_rate : ℤ) : ℚ :=
  min 1 (max 0.35 (1 - (tx_rate : ℚ) / 20000))

/-- `compute_quality_index` (lines 61-69). -/
def compute_quality_index (system : ProofSystem) (tx_rate : ℤ) : ℚ :=
  pythonRound ((benefit system - penalty system) * throughput_factor tx_rate) 4

/-! ### Python value rendering (`str()` / float `repr`) -/

/-- Decimal rendering of a natural number, as Python's `str` produces it. -/
def natStr (n : ℕ) : String := String.mk (Nat.toDigits 10 n)

/-- Python's `str` on an `int`. -/
def intStr (i : ℤ) : String :=
  if i < 0 then "-" ++ natStr i.natAbs else natStr i.natAbs

/-- Decimal expansion of a rational in `[0, 1)`, most significant digit
first, with the given fuel bounding the number of digits; stops at zero
remainder.  Used to model Python's shortest float `repr` on values that
are exact short decimals (the only floats this program produces). -/
def fracDigits (fuel : ℕ) (q : ℚ) : String :=
  match fuel with
  | 0 => ""
  | fuel' + 1 =>
    if q = 0 then ""
    else
      let d := ⌊q * 10⌋
      natStr d.toNat ++ fracDigits fuel' (q * 10 - d)

/-- Python's `repr`/`str` of a float holding an exact short decimal value:
integer part, a dot, and the fractional digits (a single `0` when the
value is integral, as in `str(10.0) = "10.0"`). -/
def floatRepr (q : ℚ) : String :=
  let sign := if q < 0 then "-" else ""
  let m := |q|
  let fr := fracDigits 17 (m - ⌊m⌋)
  sign ++ natStr (⌊m⌋).toNat ++ "." ++ (if fr = "" then "0" else fr)

/-- Python's `str()` on a summary value, as used by f-string interpolation
in `print_human`. -/
def pyStr : PyVal → String
  | .str s => s
  | .int i => intStr i
  | .rat q => floatRepr q

/-! ### JSON serialization (`json.dumps`) -/

/-- Lowercase hex digit. -/
def hexDigit (n : ℕ) : Char :=
  if n < 10 then Char.ofNat (48 + n) else Char.ofNat (87 + n)

/-- A `\uXXXX` escape for a code unit. -/
def uEscape (n : ℕ) : String :=
  "\\u" ++ String.mk [hexDigit (n / 4096 % 16), hexDigit (n / 256 % 16),
                      hexDigit (n / 16 % 16), hexDigit (n % 16)]

/-- `json.dumps` escaping of one character (default `ensure_ascii=True`). -/
def escapeChar (c : Char) : String :=
  if c = '"' then "\\\""
  else if c = '\\' then "\\\\"
  else if c = '\n' then "\\n"
  else if c = '\t' then "\\t"
  else if c = '\r' then "\\r"
  else if c.toNat < 32 then uEscape c.toNat
  else if c.toNat < 127 then String.singleton c
  else if c.toNat < 65536 then uEscape c.toNat
  else
    let n := c.toNat - 65536
    uEscape (55296 + n / 1024) ++ uEscape (56320 + n % 1024)

/-- A JSON string literal: quoted, escaped. -/
def jsonString (s : String) : String :=
  "\"" ++ String.join (s.data.map escapeChar) ++ "\""

/-- JSON rendering of a summary value. -/
def jsonVal : PyVal → String
  | .str s => jsonString s
  | .int i => intStr i
  | .rat q => floatRepr q

/-- Lexicographic order on code points, as Python compares strings. -/
def charListLe : List Char → List Char → Bool
  | [], _ => true
  | _ :: _, [] => false
  | a :: as, b :: bs =>
    if a.toNat < b.toNat then true
    else if b.toNat < a.toNat then false
    else charListLe as bs

/-- String comparison by code points. -/
def strLe (a b : String) : Bool := charListLe a.data b.data

/-- Insert one entry into a key-sorted association list. -/
def insertSorted (kv : String × PyVal) :
    List (String × PyVal) → List (String × PyVal)
  | [] => [kv]
  | hd :: tl => if strLe kv.1 hd.1 then kv :: hd :: tl else hd :: insertSorted kv tl

/-- Sort an association list by key (`sort_keys=True`). -/
def sortKeys (m : List (String × PyVal)) : List (String × PyVal) :=
  m.foldr insertSorted []

/-- `json.dumps(m, sort_keys=True)` with the default separators
`", "` and `": "` — the canonical serialization hashed by
`compute_hash` (line 57). -/
def json_dumps_sorted (m : List (String × PyVal)) : String :=
  "\x7b" ++ String.intercalate ", "
    ((sortKeys m).map (fun kv => jsonString kv.1 ++ ": " ++ jsonVal kv.2)) ++ "\x7d"

/-- `json.dumps(data, indent=2, sort_keys=True)` (line 126): one entry per
line, two-space indent, sorted keys. -/
def json_dumps_indent2_sorted (m : List (String × PyVal)) : String :=
  "\x7b\n" ++ String.intercalate ",\n"
    ((sortKeys m).map (fun kv => "  " ++ jsonString kv.1 ++ ": " ++ jsonVal kv.2)) ++ "\n\x7d"

/-! ### UTF-8 encoding and SHA-256 (`str.encode` / `hashlib.sha256`) -/

/-- UTF-8 encoding of one character, as a list of byte values. -/
def charUtf8 (c : Char) : List ℕ :=
  let n := c.toNat
  if n < 128 then [n]
  else if n < 2048 then [192 + n / 64, 128 + n % 64]
  else if n < 65536 then [224 + n / 4096, 128 + n / 64 % 64, 128 + n % 64]
  else [240 + n / 262144, 128 + n / 4096 % 64, 128 + n / 64 % 64, 128 + n % 64]

/-- `str.encode()`: the UTF-8 bytes of a string. -/
def utf8Encode (s : String) : List ℕ := (s.data.map charUtf8).flatten

/-- Truncate to a 32-bit word. -/
def w32 (n : ℕ) : ℕ := n % 4294967296

/-- Right rotation of a 32-bit word. -/
def rotr (k x : ℕ) : ℕ := w32 (x / 2 ^ k + x % 2 ^ k * 2 ^ (32 - k))

/-- Logical right shift. -/
def shr (k x : ℕ) : ℕ := x / 2 ^ k

/-- Bitwise complement within 32 bits. -/
def notw (x : ℕ) : ℕ := 4294967295 ^^^ x

/-- SHA-256 `Ch` function. -/
def ch (x y z : ℕ) : ℕ := (x &&& y) ^^^ (notw x &&& z)

/-- SHA-256 `Maj` function. -/
def maj (x y z : ℕ) : ℕ := (x &&& y) ^^^ (x &&& z) ^^^ (y &&& z)

/-- SHA-256 `Σ₀`. -/
def bsig0 (x : ℕ) : ℕ := rotr 2 x ^^^ rotr 13 x ^^^ rotr 22 x

/-- SHA-256 `Σ₁`. -/
def bsig1 (x : ℕ) : ℕ := rotr 6 x ^^^ rotr 11 x ^^^ rotr 25 x

/-- SHA-256 `σ₀`. -/
def ssig0 (x : ℕ) : ℕ := rotr 7 x ^^^ rotr 18 x ^^^ shr 3 x

/-- SHA-256 `σ₁`. -/
def ssig1 (x : ℕ) : ℕ := rotr 17 x ^^^ rotr 19 x ^^^ shr 10 x

/-- The 64 SHA-256 round constants. -/
def sha256K : List ℕ :=
  [1116352408, 1899447441, 3049323471, 3921009573,
   961987163, 1508970993, 2453635748, 2870763221,
   3624381080, 310598401, 607225278, 1426881987,
   1925078388, 2162078206, 2614888103, 3248222580,
   3835390401, 4022224774, 264347078, 604807628,
   770255983, 1249150122, 1555081692, 1996064986,
   2554220882, 2821834349, 2952996808, 3210313671,
   3336571891, 3584528711, 113926993, 338241895,
   666307205, 773529912, 1294757372, 1396182291,
   1695183700, 1986661051, 2177026350, 2456956037,
   2730485921, 2820302411, 3259730800, 3345764771,
   3516065817, 3600352804, 4094571909, 275423344,
   430227734, 506948616, 659060556, 883997877,
   958139571, 1322822218, 1537002063, 1747873779,
   1955562222, 2024104815, 2227730452, 2361852424,
   2428436474, 2756734187, 3204031479, 3329325298]

/-- The SHA-256 initial hash state. -/
def sha256H0 : List ℕ :=
  [1779033703, 3144134277, 1013904242, 2773480762,
   1359893119, 2600822924, 528734635, 1541459225]

/-- Big-endian 8-byte encoding of a length value. -/
def bigEndian8 (n : ℕ) : List ℕ :=
  [n / 2 ^ 56 % 256, n / 2 ^ 48 % 256, n / 2 ^ 40 % 256, n / 2 ^ 32 % 256,
   n / 2 ^ 24 % 256, n / 2 ^ 16 % 256, n / 2 ^ 8 % 256, n % 256]

/-- SHA-256 padding: append `0x80`, zero bytes to 56 mod 64, then the
bit length as a big-endian 64-bit integer. -/
def sha256pad (msg : List ℕ) : List ℕ :=
  let zeros := (119 - msg.length % 64) % 64
  msg ++ [128] ++ List.replicate zeros 0 ++ bigEndian8 (8 * msg.length)

/-- Split a byte list into 64-byte blocks. -/
def chunks64 (l : List ℕ) : List (List ℕ) :=
  if hl : l = [] then [] else l.take 64 :: chunks64 (l.drop 64)
termination_by l.length
decreasing_by
  simp only [List.length_drop]
  have : 0 < l.length := List.length_pos.mpr hl
  omega

/-- Combine bytes into big-endian 32-bit words. -/
def toWords : List ℕ → List ℕ
  | b0 :: b1 :: b2 :: b3 :: rest =>
    (b0 * 16777216 + b1 * 65536 + b2 * 256 + b3) :: toWords rest
  | _ => []

/-- Extend the 16-word message schedule by `k` further words. -/
def extendW (w : List ℕ) : ℕ → List ℕ
  | 0 => w
  | k + 1 =>
    let n := w.length
    extendW (w ++ [w32 (ssig1 (w.getD (n - 2) 0) + w.getD (n - 7) 0 +
                        ssig0 (w.getD (n - 15) 0) + w.getD (n - 16) 0)]) k

/-- One SHA-256 compression round on the eight-word state. -/
def sha256round (w : List ℕ) (st : List ℕ) (i : ℕ) : List ℕ :=
  match st with
  | [a, b, c, d, e, f, g, h] =>
    let t1 := w32 (h + bsig1 e + ch e f g + sha256K.getD i 0 + w.getD i 0)
    let t2 := w32 (bsig0 a + maj a b c)
    [w32 (t1 + t2), a, b, c, w32 (d + t1), e, f, g]
  | st => st

/-- SHA-256 compression of one 64-byte block into the hash state. -/
def sha256compress (hs : List ℕ) (block : List ℕ) : List ℕ :=
  let w := extendW (toWords block) 48
  let fin := (List.range 64).foldl (sha256round w) hs
  List.zipWith (fun x y => w32 (x + y)) hs fin

/-- SHA-256 digest of a byte list, as 32 bytes. -/
def sha256bytes (msg : List ℕ) : List ℕ :=
  let hs := (chunks64 (sha256pad msg)).foldl sha256compress sha256H0
  (hs.map (fun wd => [wd / 2 ^ 24 % 256, wd / 2 ^ 16 % 256, wd / 2 ^ 8 % 256, wd % 256])).flatten

/-- Lowercase hex of one byte. -/
def byteHex (b : ℕ) : String := String.mk [hexDigit (b / 16 % 16), hexDigit (b % 16)]

/-- `hashlib.sha256(...).hexdigest()`: lowercase hex of the 32-byte digest. -/
def sha256hex (msg : List ℕ) : String := String.join ((sha256bytes msg).map byteHex)

/-- `compute_hash` (lines 56-58): SHA-256 hex digest of the key-sorted
JSON serialization of the metadata, UTF-8 encoded. -/
def compute_hash (metadata : List (String × PyVal)) : String :=
  sha256hex (utf8Encode (json_dumps_sorted metadata))

/-! ### Summarizer (`build_summary`, lines 72-78) -/

/-- The summary dictionary just before `"hash"` is added (lines 73-76):
`asdict(system)` in dataclass field order, then `txRate`, `qualityIndex`
and `timestamp`.  The wall clock `int(time.time())` is passed in as `ts`. -/
def summary_metadata (system : ProofSystem) (tx_rate ts : ℤ) : List (String × PyVal) :=
  [("key", .str system.key),
   ("name", .str system.name),
   ("family", .str system.family),
   ("description", .str system.description),
   ("proving_complexity", .rat system.proving_complexity),
   ("verification_cost", .rat system.verification_cost),
   ("privacy_strength", .rat system.privacy_strength),
   ("soundness_guarantee", .rat system.soundness_guarantee),
   ("txRate", .int tx_rate),
   ("qualityIndex", .rat (compute_quality_index system tx_rate)),
   ("timestamp", .int ts)]

/-- `build_summary` (lines 72-78): the metadata fields followed by the
`"hash"` entry computed over them. -/
def build_summary (system : ProofSystem) (tx_rate ts : ℤ) : List (String × PyVal) :=
  summary_metadata system tx_rate ts ++
    [("hash", .str (compute_hash (summary_metadata system tx_rate ts)))]

/-- Dictionary access `summary[k]`.  The default is never reached for the
keys this program uses (Python would raise `KeyError`). -/
def pyGet (m : List (String × PyVal)) (k : String) : PyVal :=
  match m.find? (fun kv => kv.1 == k) with
  | some kv => kv.2
  | none => .str ""

/-- `print_human` (lines 104-117), as the list of printed lines. -/
def print_human (s : List (String × PyVal)) : List String :=
  ["🔐 Cryptographic Architecture Model",
   "System: " ++ pyStr (pyGet s "name") ++ " (" ++ pyStr (pyGet s "key") ++ ")",
   "Family: " ++ pyStr (pyGet s "family"),
   "Description: " ++ pyStr (pyGet s "description"),
   "",
   "Transactions/sec: " ++ pyStr (pyGet s "txRate"),
   "Privacy strength: " ++ pyStr (pyGet s "privacy_strength"),
   "Soundness guarantee: " ++ pyStr (pyGet s "soundness_guarantee"),
   "Proving complexity: " ++ pyStr (pyGet s "proving_complexity"),
   "Verification cost:  " ++ pyStr (pyGet s "verification_cost"),
   "",
   "🏁 Quality Index: " ++ pyStr (pyGet s "qualityIndex"),
   "🧬 Metadata hash: " ++ pyStr (pyGet s "hash")]

/-! ### CLI driver

Modelled from the spec: `parse_args` (lines 81-101) only declares the
`argparse` configuration; the parsing, validation and error behavior live
in the Python standard library, outside `src/`.  The model below follows
§4.5, §6 and §7 of the spec: a required positional integer `tx_rate`, an
optional `--system` restricted to the catalog keys (default `"aztec"`),
an optional `--json` flag; any malformed input yields a usage message on
standard error and a non-zero exit (argparse uses status 2), with nothing
on standard output. -/

/-- Digits-only value of a character list, `none` when empty or when a
non-digit occurs. -/
def digitsVal (l : List Char) : Option ℕ :=
  if l = [] then none
  else if l.all (fun c => c.isDigit) then
    some (l.foldl (fun a c => 10 * a + (c.toNat - 48)) 0)
  else none

/-- Modelled from the spec: Python's `int(str)` on a CLI token — an
optional sign followed by decimal digits. -/
def parseIntStr (s : String) : Option ℤ :=
  match s.data with
  | '-' :: rest => (digitsVal rest).map (fun n => -(n : ℤ))
  | '+' :: rest => (digitsVal rest).map (fun n => (n : ℤ))
  | l => (digitsVal l).map (fun n => (n : ℤ))

/-- The raw results of scanning the argument vector. -/
structure RawArgs where
  positionals : List String
  system : Option String
  json : Bool
deriving Repr, DecidableEq

/-- Modelled from the spec: one left-to-right scan of the argument
vector, as `argparse` performs it — `--json` sets the flag, `--system`
consumes the next token, an unknown option is an error, a token that
looks like a negative number counts as a positional. -/
def scanArgs : List String → RawArgs → Except String RawArgs
  | [], acc => .ok acc
  | a :: rest, acc =>
    if a = "--json" then scanArgs rest { acc with json := true }
    else if a = "--system" then
      match rest with
      | [] => .error "argument --system: expected one argument"
      | v :: rest2 => scanArgs rest2 { acc with system := some v }
    else if (match a.data with | '-' :: _ :: _ => true | _ => false)
            && (parseIntStr a).isNone then
      .error ("unrecognized arguments: " ++ a)
    else scanArgs rest { acc with positionals := acc.positionals ++ [a] }

/-- The parsed argument record (`argparse.Namespace`). -/
structure Args where
  tx_rate : ℤ
  system : String
  json : Bool
deriving Repr, DecidableEq

/-- The usage line `argparse` prints for this parser configuration. -/
def usage_text : String :=
  "usage: app.py [-h] [--system \x7baztec,zama,soundness\x7d] [--json] tx_rate"

/-- Modelled from the spec: `parse_args` (lines 81-101) — scan the
arguments, check `--system` against the catalog's key choices, and
require exactly one positional that parses as an integer.  Every failure
carries the usage text. -/
def parse_args (argv : List String) : Except String Args :=
  match scanArgs argv ⟨[], none, false⟩ with
  | .error e => .error (usage_text ++ ("\napp.py: error: " ++ e))
  | .ok raw =>
    let sys := raw.system.getD "aztec"
    if (SYSTEMS.map Prod.fst).contains sys then
      match raw.positionals with
      | [t] =>
        match parseIntStr t with
        | some n => .ok ⟨n, sys, raw.json⟩
        | none => .error (usage_text ++ ("\napp.py: error: argument tx_rate: invalid int value: " ++ t))
      | [] => .error (usage_text ++ "\napp.py: error: the following arguments are required: tx_rate")
      | _ => .error (usage_text ++ "\napp.py: error: unrecognized arguments")
    else .error (usage_text ++ ("\napp.py: error: argument --system: invalid choice: " ++ sys))

/-- Is the CLI input malformed in one of the senses of §7: no single
parseable `tx_rate` positional, a `--system` value outside the key set,
or a scan-level error (unknown flag, missing option value)? -/
def malformedCli (argv : List String) : Bool :=
  match scanArgs argv ⟨[], none, false⟩ with
  | .error _ => true
  | .ok raw =>
    (match raw.positionals with
     | [t] => (parseIntStr t).isNone
     | _ => true)
    || !((SYSTEMS.map Prod.fst).contains (raw.system.getD "aztec"))

/-- The observable outcome of one process run. -/
structure ProcResult where
  exitCode : ℕ
  stdout : String
  stderr : String
deriving Repr, DecidableEq

/-- `main` (lines 120-128) as a whole-process model: parse, look up the
system, build the summary, render as JSON or human text.  The wall clock
reading `int(time.time())` is the `ts` parameter; each `print` appends a
newline. -/
def run_main (argv : List String) (ts : ℤ) : ProcResult :=
  match parse_args argv with
  | .error msg => ⟨2, "", msg ++ "\n"⟩
  | .ok a =>
    match lookupSystem a.system with
    | none => ⟨2, "", usage_text ++ "\n"⟩
    | some sys =>
      let data := build_summary sys a.tx_rate ts
      if a.json then ⟨0, json_dumps_indent2_sorted data ++ "\n", ""⟩
      else ⟨0, String.intercalate "\n" (print_human data) ++ "\n", ""⟩

/-! ## Evaluation lemmas for rounding -/

lemma nearestEven_of_lt_half (x : ℚ) (k : ℤ) (h0 : (k : ℚ) ≤ x) (h1 : x - k < 1/2) :
    nearestEven x = k := by
  have hf : ⌊x⌋ = k := Int.floor_eq_iff.mpr ⟨h0, by linarith⟩
  unfold nearestEven
  rw [hf, if_pos h1]

lemma nearestEven_of_half_odd (x : ℚ) (k : ℤ) (hx : x = k + 1/2) (ho : k % 2 = 1) :
    nearestEven x = k + 1 := by
  have hf : ⌊x⌋ = k := Int.floor_eq_iff.mpr ⟨by rw [hx]; linarith, by rw [hx]; linarith⟩
  unfold nearestEven
  rw [hf, if_neg (by rw [hx]; linarith), if_neg (by rw [hx]; linarith), if_neg (by simp [ho])]

lemma eval_aztec_diff : benefit aztecSystem - penalty aztecSystem = 6.633 := by
  norm_num [benefit, penalty, aztecSystem]

lemma tf_zero : throughput_factor 0 = 1 := by
  unfold throughput_factor
  rw [show (1 : ℚ) - ((0 : ℤ) : ℚ) / 20000 = 1 by norm_num,
      max_eq_right (by norm_num), min_self]

lemma tf_20000 : throughput_factor 20000 = 0.35 := by
  unfold throughput_factor
  rw [show (1 : ℚ) - ((20000 : ℤ) : ℚ) / 20000 = 0 by norm_num,
      max_eq_left (by norm_num), min_eq_right (by norm_num)]

/-! ## Claims -/

/-- C1: for the catalog record `"aztec"` with `txRate = 0`,
`compute_quality_index` returns exactly `6.633`: the benefit is
`0.42*9.3 + 0.43*8.4 = 7.518`, the penalty is
`0.10*7.8 + 0.05*2.1 = 0.885`, the throughput factor is `1.0`, and
`round((7.518 - 0.885) * 1.0, 4) = 6.633`. -/
theorem C1_aztec_quality_index_at_zero :
    lookupSystem "aztec" = some aztecSystem ∧
    benefit aztecSystem = 7.518 ∧
    penalty aztecSystem = 0.885 ∧
    throughput_factor 0 = 1 ∧
    compute_quality_index aztecSystem 0 = 6.633 := by
  refine ⟨rfl, by norm_num [benefit, aztecSystem], by norm_num [penalty, aztecSystem],
    tf_zero, ?_⟩
  unfold compute_quality_index pythonRound
  rw [eval_aztec_diff, tf_zero]
  rw [show (6.633 : ℚ) * 1 * 10 ^ 4 = ((66330 : ℤ) : ℚ) by norm_num,
      nearestEven_of_lt_half _ 66330 (by norm_num) (by norm_num)]
  norm_num

/-- C4: for the catalog record `"aztec"` with `txRate = 20000`, the
throughput factor equals `0.35` and `compute_quality_index` returns
`round(6.633 * 0.35, 4)`; the exact value `2.32155` rounds half-to-even
to `2.3216`, which settles the claim's `2.3216`-or-`2.3215`
disjunction. -/
theorem C4_aztec_quality_index_at_20000 :
    throughput_factor 20000 = 0.35 ∧
    compute_quality_index aztecSystem 20000 = pythonRound (6.633 * 0.35) 4 ∧
    (compute_quality_index aztecSystem 20000 = 2.3216 ∨
     compute_quality_index aztecSystem 20000 = 2.3215) := by
  have hv : compute_quality_index aztecSystem 20000 = pythonRound (6.633 * 0.35) 4 := by
    unfold compute_quality_index
    rw [eval_aztec_diff, tf_20000]
  have he : pythonRound (6.633 * 0.35) 4 = 2.3216 := by
    unfold pythonRound
    rw [show (6.633 : ℚ) * 0.35 * 10 ^ 4 = ((23215 : ℤ) : ℚ) + 1/2 by norm_num,
        nearestEven_of_half_odd _ 23215 rfl (by decide)]
    norm_num
  exact ⟨tf_20000, hv, Or.inl (hv.trans he)⟩

/-- C3: the throughput factor is `clamp(1 - txRate/20000, 0.35, 1.0)`:
for every integer `txRate` it lies in `[0.35, 1]`; it equals `1`
whenever the raw value `1 - txRate/20000` is at least `1` (in
particular for every `txRate ≤ -13000`); and it equals `0.35` for every
`txRate ≥ 13000`. -/
theorem C3_throughput_factor_clamped (t : ℤ) :
    (0.35 ≤ throughput_factor t ∧ throughput_factor t ≤ 1) ∧
    (1 ≤ 1 - (t : ℚ) / 20000 → throughput_factor t = 1) ∧
    (t ≤ -13000 → throughput_factor t = 1) ∧
    (13000 ≤ t → throughput_factor t = 0.35) := by
  have hraw1 : ∀ _ : (1 : ℚ) ≤ 1 - (t : ℚ) / 20000, throughput_factor t = 1 := by
    intro h
    unfold throughput_factor
    rw [max_eq_right (by linarith), min_eq_left h]
  refine ⟨⟨?_, ?_⟩, hraw1, ?_, ?_⟩
  · exact le_min (by norm_num) (le_max_left _ _)
  · exact min_le_left _ _
  · intro h
    apply hraw1
    have hc : (t : ℚ) ≤ -13000 := by exact_mod_cast h
    have : (t : ℚ) / 20000 ≤ -13000 / 20000 :=
      (div_le_div_iff_of_pos_right (by norm_num)).mpr hc
    nlinarith
  · intro h
    have hc : (13000 : ℚ) ≤ (t : ℚ) := by exact_mod_cast h
    have : (13000 : ℚ) / 20000 ≤ (t : ℚ) / 20000 :=
      (div_le_div_iff_of_pos_right (by norm_num)).mpr hc
    unfold throughput_factor
    rw [max_eq_left (by nlinarith), min_eq_right (by norm_num)]

/-- Witness for C3 at concrete transaction rates. -/
theorem C3_throughput_factor_clamped_witness :
    throughput_factor 13000 = 0.35 ∧ throughput_factor (-13000) = 1 ∧
    throughput_factor (-20000) = 1 :=
  ⟨(C3_throughput_factor_clamped 13000).2.2.2 (by decide),
   (C3_throughput_factor_clamped (-13000)).2.2.1 (by decide),
   (C3_throughput_factor_clamped (-20000)).2.1 (by norm_num)⟩

/-- C9: `compute_quality_index` is total and deterministic: equal
`(record, txRate)` inputs always give equal results, and for every
record and every integer transaction rate the result exists as a
rational of the rounded form `n / 10^4`, with no error condition. -/
theorem C9_quality_index_total_deterministic (s s' : ProofSystem) (t t' : ℤ)
    (hs : s = s') (ht : t = t') :
    compute_quality_index s t = compute_quality_index s' t' ∧
    (∃ n : ℤ, compute_quality_index s t = (n : ℚ) / 10 ^ 4) := by
  subst hs; subst ht
  exact ⟨rfl,
    ⟨nearestEven ((benefit s - penalty s) * throughput_factor t * 10 ^ 4), rfl⟩⟩

/-- Witness for C9 at a concrete record and rate. -/
theorem C9_quality_index_total_deterministic_witness :
    compute_quality_index aztecSystem 5 = compute_quality_index aztecSystem 5 ∧
    (∃ n : ℤ, compute_quality_index aztecSystem 5 = (n : ℚ) / 10 ^ 4) :=
  C9_quality_index_total_deterministic aztecSystem aztecSystem 5 5 rfl rfl

/-- C8: the catalog holds exactly the three keys `aztec`, `zama` and
`soundness`, in that order, and every successful lookup returns a
record whose `key` field equals the lookup key. -/
theorem C8_catalog_three_keys :
    SYSTEMS.map Prod.fst = ["aztec", "zama", "soundness"] ∧
    ∀ k r, lookupSystem k = some r → r.key = k := by
  refine ⟨rfl, ?_⟩
  intro k r h
  unfold lookupSystem at h
  rw [Option.map_eq_some'] at h
  obtain ⟨kv, hfind, hval⟩ := h
  have hp := List.find?_some hfind
  have hk : kv.1 = k := by simpa using hp
  have hm := List.mem_of_find?_eq_some hfind
  subst hval
  subst hk
  simp only [SYSTEMS, List.mem_cons, List.not_mem_nil, or_false] at hm
  rcases hm with h' | h' | h' <;> rw [h'] <;> rfl

/-- Witness for C8: looking up `"aztec"` yields the aztec record, whose
`key` field is `"aztec"`. -/
theorem C8_catalog_three_keys_witness :
    lookupSystem "aztec" = some aztecSystem ∧ aztecSystem.key = "aztec" :=
  ⟨rfl, C8_catalog_three_keys.2 "aztec" aztecSystem rfl⟩

/-- C2: `build_summary` computes the `hash` field over the other eleven
fields, excluding the hash itself: the hash entry equals `compute_hash`
of the metadata dictionary, whose keys are exactly the eight record
fields plus `txRate`, `qualityIndex` and `timestamp`; the serialization
is key-sorted and UTF-8 encoded before hashing; and two calls with equal
field values and equal timestamps produce the identical digest. -/
theorem C2_hash_excludes_itself (r r' : ProofSystem) (t t' ts ts' : ℤ)
    (hr : r = r') (ht : t = t') (hts : ts = ts') :
    pyGet (build_summary r t ts) "hash" =
      .str (compute_hash (summary_metadata r t ts)) ∧
    (summary_metadata r t ts).map Prod.fst =
      ["key", "name", "family", "description", "proving_complexity",
       "verification_cost", "privacy_strength", "soundness_guarantee",
       "txRate", "qualityIndex", "timestamp"] ∧
    (sortKeys (summary_metadata r t ts)).map Prod.fst =
      ["description", "family", "key", "name", "privacy_strength",
       "proving_complexity", "qualityIndex", "soundness_guarantee",
       "timestamp", "txRate", "verification_cost"] ∧
    compute_hash (summary_metadata r t ts) =
      sha256hex (utf8Encode (json_dumps_sorted (summary_metadata r t ts))) ∧
    compute_hash (summary_metadata r t ts) = compute_hash (summary_metadata r' t' ts') := by
  refine ⟨rfl, rfl, rfl, rfl, ?_⟩
  rw [hr, ht, hts]

/-- Witness for C2 at the aztec record with `txRate = 0` and a fixed
timestamp. -/
theorem C2_hash_excludes_itself_witness :
    pyGet (build_summary aztecSystem 0 1700000000) "hash" =
      .str (compute_hash (summary_metadata aztecSystem 0 1700000000)) ∧
    (summary_metadata aztecSystem 0 1700000000).map Prod.fst =
      ["key", "name", "family", "description", "proving_complexity",
       "verification_cost", "privacy_strength", "soundness_guarantee",
       "txRate", "qualityIndex", "timestamp"] ∧
    (sortKeys (summary_metadata aztecSystem 0 1700000000)).map Prod.fst =
      ["description", "family", "key", "name", "privacy_strength",
       "proving_complexity", "qualityIndex", "soundness_guarantee",
       "timestamp", "txRate", "verification_cost"] ∧
    compute_hash (summary_metadata aztecSystem 0 1700000000) =
      sha256hex (utf8Encode (json_dumps_sorted (summary_metadata aztecSystem 0 1700000000))) ∧
    compute_hash (summary_metadata aztecSystem 0 1700000000) =
      compute_hash (summary_metadata aztecSystem 0 1700000000) :=
  C2_hash_excludes_itself aztecSystem aztecSystem 0 0 1700000000 1700000000 rfl rfl rfl

/-- C5: in JSON mode the program prints the summary as a JSON object
whose keys appear sorted lexicographically and are exactly the twelve
field names, rendered with two-space indentation; the printed text is
the indent-2 key-sorted serialization of the summary record. -/
theorem C5_json_mode_output (r : ProofSystem) (t ts : ℤ) :
    (sortKeys (build_summary r t ts)).map Prod.fst =
      ["description", "family", "hash", "key", "name", "privacy_strength",
       "proving_complexity", "qualityIndex", "soundness_guarantee",
       "timestamp", "txRate", "verification_cost"] ∧
    json_dumps_indent2_sorted (build_summary r t ts) =
      "\x7b\n" ++ String.intercalate ",\n"
        ((sortKeys (build_summary r t ts)).map
          (fun kv => "  " ++ jsonString kv.1 ++ ": " ++ jsonVal kv.2)) ++ "\n\x7d" ∧
    (run_main ["0", "--json"] ts).stdout =
      json_dumps_indent2_sorted (build_summary aztecSystem 0 ts) ++ "\n" :=
  ⟨rfl, rfl, rfl⟩

/-- C6: in human mode the program prints exactly the fixed thirteen-line
layout, in order: header, `System:`, `Family:`, `Description:`, a blank
line, `Transactions/sec:`, `Privacy strength:`, `Soundness guarantee:`,
`Proving complexity:`, `Verification cost:`, a blank line, the Quality
Index line, and the Metadata hash line. -/
theorem C6_human_mode_output (r : ProofSystem) (t ts : ℤ) :
    print_human (build_summary r t ts) =
      ["🔐 Cryptographic Architecture Model",
       "System: " ++ r.name ++ " (" ++ r.key ++ ")",
       "Family: " ++ r.family,
       "Description: " ++ r.description,
       "",
       "Transactions/sec: " ++ intStr t,
       "Privacy strength: " ++ floatRepr r.privacy_strength,
       "Soundness guarantee: " ++ floatRepr r.soundness_guarantee,
       "Proving complexity: " ++ floatRepr r.proving_complexity,
       "Verification cost:  " ++ floatRepr r.verification_cost,
       "",
       "🏁 Quality Index: " ++ floatRepr (compute_quality_index r t),
       "🧬 Metadata hash: " ++ compute_hash (summary_metadata r t ts)] ∧
    (run_main ["0"] ts).stdout =
      String.intercalate "\n" (print_human (build_summary aztecSystem 0 ts)) ++ "\n" :=
  ⟨rfl, rfl⟩

lemma malformed_parse_error (argv : List String) (h : malformedCli argv = true) :
    ∃ m, parse_args argv = .error (usage_text ++ m) := by
  unfold malformedCli at h
  unfold parse_args
  split at h
  case _ e heq =>
    exact ⟨_, rfl⟩
  case _ raw heq =>
    rw [Bool.or_eq_true] at h
    dsimp only
    split
    case _ hc =>
      split
      case _ t hpos =>
        split
        case _ n hpi =>
          exfalso
          rcases h with hA | hB
          · rw [hpos] at hA
            dsimp only at hA
            rw [hpi] at hA
            simp at hA
          · rw [hc] at hB
            simp at hB
        case _ hpi =>
          exact ⟨_, rfl⟩
      case _ hpos => exact ⟨_, rfl⟩
      case _ hpos h2 => exact ⟨_, rfl⟩
    case _ hc =>
      exact ⟨_, rfl⟩

/-- C7: every malformed CLI invocation — missing or non-integer
`tx_rate`, or a `--system` value outside the fixed key set — exits with
a non-zero status (argparse convention 2), prints a usage message on
standard error, and prints nothing on standard output. -/
theorem C7_malformed_cli_rejected (argv : List String) (ts : ℤ)
    (h : malformedCli argv = true) :
    (run_main argv ts).exitCode ≠ 0 ∧
    (run_main argv ts).stdout = "" ∧
    ∃ m, (run_main argv ts).stderr = usage_text ++ m := by
  obtain ⟨m, hm⟩ := malformed_parse_error argv h
  unfold run_main
  rw [hm]
  refine ⟨by simp, rfl, ⟨m ++ "\n", ?_⟩⟩
  show (usage_text ++ m) ++ "\n" = usage_text ++ (m ++ "\n")
  rw [String.append_assoc]

/-- Witness for C7 at a concrete malformed invocation. -/
theorem C7_malformed_cli_rejected_witness :
    malformedCli ["5", "--system", "bitcoin"] = true ∧
    (run_main ["5", "--system", "bitcoin"] 0).exitCode ≠ 0 ∧
    (run_main ["5", "--system", "bitcoin"] 0).stdout = "" ∧
    ∃ m, (run_main ["5", "--system", "bitcoin"] 0).stderr = usage_text ++ m :=
  ⟨rfl, C7_malformed_cli_rejected ["5", "--system", "bitcoin"] 0 rfl⟩

lemma nearestEven_bounds (x : ℚ) :
    x - 1/2 ≤ (nearestEven x : ℚ) ∧ (nearestEven x : ℚ) ≤ x + 1/2 := by
  have hfl := Int.floor_le x
  have hfu := Int.lt_floor_add_one x
  unfold nearestEven
  split_ifs with h1 h2 h3
  all_goals constructor
  all_goals push_cast
  all_goals linarith

lemma nearestEven_mono {x y : ℚ} (h : x ≤ y) : nearestEven x ≤ nearestEven y := by
  by_contra hc
  push_neg at hc
  have h1 := (nearestEven_bounds x).2
  have h2 := (nearestEven_bounds y).1
  have hstep : (nearestEven y : ℚ) + 1 ≤ (nearestEven x : ℚ) := by
    exact_mod_cast Int.add_one_le_iff.mpr hc
  have hxy : x = y := le_antisymm h (by linarith)
  rw [hxy] at hc
  exact lt_irrefl _ hc

lemma pythonRound_mono {x y : ℚ} (n : ℕ) (h : x ≤ y) :
    pythonRound x n ≤ pythonRound y n := by
  unfold pythonRound
  have hm : nearestEven (x * 10 ^ n) ≤ nearestEven (y * 10 ^ n) :=
    nearestEven_mono (mul_le_mul_of_nonneg_right h (by positivity))
  have hq : ((nearestEven (x * 10 ^ n) : ℤ) : ℚ) ≤ ((nearestEven (y * 10 ^ n) : ℤ) : ℚ) := by
    exact_mod_cast hm
  gcongr

lemma tf_antitone {t1 t2 : ℤ} (h : t1 ≤ t2) :
    throughput_factor t2 ≤ throughput_factor t1 := by
  unfold throughput_factor
  have hc : (t1 : ℚ) ≤ (t2 : ℚ) := by exact_mod_cast h
  have hd : (t1 : ℚ) / 20000 ≤ (t2 : ℚ) / 20000 := by gcongr
  exact min_le_min (le_refl 1) (max_le_max (le_refl _) (by linarith))

lemma lookup_cases {k : String} {r : ProofSystem} (h : lookupSystem k = some r) :
    r = aztecSystem ∨ r = zamaSystem ∨ r = soundnessSystem := by
  unfold lookupSystem at h
  rw [Option.map_eq_some'] at h
  obtain ⟨kv, hfind, hval⟩ := h
  have hm := List.mem_of_find?_eq_some hfind
  subst hval
  simp only [SYSTEMS, List.mem_cons, List.not_mem_nil, or_false] at hm
  rcases hm with h' | h' | h' <;> rw [h']
  · exact Or.inl rfl
  · exact Or.inr (Or.inl rfl)
  · exact Or.inr (Or.inr rfl)

/-- C10: for every catalog record, the quality index is monotonically
non-increasing in the transaction rate, because `benefit - penalty` is
strictly positive for each of the three records and the clamped
throughput factor is non-increasing. -/
theorem C10_quality_index_antitone (k : String) (r : ProofSystem)
    (hr : lookupSystem k = some r) (t1 t2 : ℤ) (h : t1 ≤ t2) :
    0 < benefit r - penalty r ∧
    compute_quality_index r t2 ≤ compute_quality_index r t1 := by
  have hD : 0 < benefit r - penalty r := by
    rcases lookup_cases hr with h' | h' | h' <;> rw [h'] <;>
      norm_num [benefit, penalty, aztecSystem, zamaSystem, soundnessSystem]
  refine ⟨hD, ?_⟩
  unfold compute_quality_index
  exact pythonRound_mono 4 (mul_le_mul_of_nonneg_left (tf_antitone h) (le_of_lt hD))

/-- Witness for C10 at the aztec record and rates `0 ≤ 1`. -/
theorem C10_quality_index_antitone_witness :
    0 < benefit aztecSystem - penalty aztecSystem ∧
    compute_quality_index aztecSystem 1 ≤ compute_quality_index aztecSystem 0 :=
  C10_quality_index_antitone "aztec" aztecSystem rfl 0 1 (by decide)

end App


